import Mathlib

/-!
Verification of the abstract-to-allocated program lowering pipeline
(file src/sway-core/src/asm_generation/fuel/programs/abstract.rs).

The data model and the operations below are a shallow embedding of that
source file.  Collaborator types whose implementations live outside the
visible sources (data section entries, globals section, label sequencer,
and the optimize / verify / allocate-registers passes) are either modelled
from the specification (and documented as such) or kept fully abstract as
parameters, so that each theorem quantifies over every possible behaviour
of the missing collaborator.
-/

namespace Sway

/-- A jump-target label, an opaque identifier. -/
abbrev Label := Nat

/-- Function display name. -/
abbrev FnName := String

/-- One byte. -/
abbrev Byte := Fin 256

/-- A 4-byte method selector. -/
abbrev Selector := Byte × Byte × Byte × Byte

/-- Option of a 4-byte selector. -/
abbrev SelectorOpt := Option Selector

/-- The Rust expression u32::from_be_bytes on the 4 selector bytes:
big-endian interpretation. -/
def u32_from_be_bytes (s : Selector) : Nat :=
  s.1.val * 16777216 + s.2.1.val * 65536 + s.2.2.1.val * 256 + s.2.2.2.val

/-- Program kinds, a closed variant set. -/
inductive ProgramKind
  | Script
  | Predicate
  | Contract
  | Library
deriving DecidableEq

/-- Experimental feature flags; only the new-encoding flag is relevant here. -/
structure ExperimentalFlags where
  new_encoding : Bool
deriving DecidableEq

/-- Fixed-purpose machine registers used by the lowering driver. -/
inductive ConstantRegister
  | Scratch
  | ProgramCounter
  | DataSectionStart
  | FramePointer
deriving DecidableEq

/-- A register of the allocated instruction set: a fixed-purpose constant
register or a numbered allocatable register. -/
inductive AllocatedRegister
  | Constant (r : ConstantRegister)
  | Allocated (n : Nat)
deriving DecidableEq

/-- A 12-bit immediate; new_unchecked stores the value without masking. -/
structure VirtualImmediate12 where
  value : Nat
deriving DecidableEq

/-- An 18-bit immediate; the struct literal stores the value without masking. -/
structure VirtualImmediate18 where
  value : Nat
deriving DecidableEq

/-- A 24-bit immediate; its field is a u32 in the source, so the value is
reduced modulo 2 to the 32 at the cast site. -/
structure VirtualImmediate24 where
  value : Nat
deriving DecidableEq

/-- Identifier of a data section entry, returned by insertion. -/
abbrev DataId := Nat

/-- The allocated opcodes used by the lowering driver. -/
inductive AllocatedOpcode
  | MOVE (dst src : AllocatedRegister)
  | LW (dst base : AllocatedRegister) (imm : VirtualImmediate12)
  | ADD (dst a b : AllocatedRegister)
  | EQ (dst a b : AllocatedRegister)
  | LoadDataId (dst : AllocatedRegister) (id : DataId)
  | MOVI (dst : AllocatedRegister) (imm : VirtualImmediate18)
  | RVRT (r : AllocatedRegister)
  | CFEI (imm : VirtualImmediate24)
deriving DecidableEq

/-- Control flow operations of the allocated abstract instruction set. -/
inductive ControlFlowOp
  | Jump (l : Label)
  | JumpIfNotZero (r : AllocatedRegister) (l : Label)
  | Call (l : Label)
  | Label (l : Sway.Label)
  | Comment
  | Metadata
  | DataSectionOffsetPlaceholder
deriving DecidableEq

/-- The Either type of the Rust either crate. -/
inductive Either (α β : Type)
  | Left (a : α)
  | Right (b : β)
deriving DecidableEq

/-- One allocated abstract operation: an opcode or a control flow op,
with a comment and an optional owning span (always absent here). -/
structure AllocatedAbstractOp where
  opcode : Either AllocatedOpcode ControlFlowOp
  comment : String
  owning_span : Option Unit
deriving DecidableEq

/-- An allocated abstract instruction set: a list of operations. -/
structure AllocatedAbstractInstructionSet where
  ops : List AllocatedAbstractOp
deriving DecidableEq

/-- Modelled from the spec: the value stored in a Data Section entry is a
word-sized integer or a byte sequence (data_section.rs is not under src/). -/
inductive EntryValue
  | Word (w : Nat)
  | ByteSeq (bs : List Byte)
deriving DecidableEq

/-- Modelled from the spec: a Data Section entry holds a value plus two
optional metadata arguments, both absent at the only call site in scope
(data_section.rs is not under src/). -/
structure Entry where
  value : EntryValue
  opt_a : Option Unit
  opt_b : Option Unit
deriving DecidableEq

/-- Modelled from the spec: the word-entry constructor takes a u64 value,
hence the reduction modulo 2 to the 64 (data_section.rs is not under src/). -/
def Entry.new_word (w : Nat) (a b : Option Unit) : Entry :=
  ⟨.Word (w % 18446744073709551616), a, b⟩

/-- The Data Section: an ordered list of entries. -/
structure DataSection where
  value_pairs : List Entry
deriving DecidableEq

/-- Modelled from the spec: insertion appends the entry and returns the
identifier used to reference it later; insertion order determines layout
order (data_section.rs is not under src/). -/
def DataSection.insert_data_value (ds : DataSection) (e : Entry) : DataId × DataSection :=
  (ds.value_pairs.length, ⟨ds.value_pairs ++ [e]⟩)

/-- Modelled from the spec: the Globals Section records the total byte size
required for all program-level globals (globals_section.rs is not under src/). -/
structure GlobalsSection where
  len_in_bytes : Nat
deriving DecidableEq

/-- Modelled from the spec: the Label Sequencer issues unique identifiers,
modelled as an explicit counter (register_sequencer.rs is not under src/). -/
structure RegisterSequencer where
  next : Nat
deriving DecidableEq

/-- Modelled from the spec: issue a fresh label and advance the counter. -/
def RegisterSequencer.get_label (s : RegisterSequencer) : Label × RegisterSequencer :=
  (s.next, ⟨s.next + 1⟩)

/-- One program entry point. -/
structure AbstractEntry (AIS DRF : Type) where
  selector : SelectorOpt
  label : Label
  ops : AIS
  name : FnName
  test_decl_ref : Option DRF

/-- The abstract program container.  The abstract instruction set type AIS
and the test declaration reference type DRF are kept abstract. -/
structure AbstractProgram (AIS DRF : Type) where
  kind : ProgramKind
  data_section : DataSection
  globals_section : GlobalsSection
  before_entries : AIS
  entries : List (AbstractEntry AIS DRF)
  non_entries : List AIS
  reg_seqr : RegisterSequencer
  experimental : ExperimentalFlags

/-- The lowering output. -/
structure AllocatedProgram (DRF : Type) where
  kind : ProgramKind
  data_section : DataSection
  prologue : AllocatedAbstractInstructionSet
  functions : List AllocatedAbstractInstructionSet
  entries : List (SelectorOpt × Label × FnName × Option DRF)
deriving DecidableEq

/-- Collaborator operations whose implementations live outside src/
(abstract_instruction_set.rs and allocated_abstract_instruction_set.rs):
the per-function optimize, verify, allocate-registers and push-pop wrapping
passes.  Theorems quantify over every possible behaviour of these. -/
structure Collaborators (AIS E : Type) where
  optimize : AIS → DataSection → AIS
  verify : AIS → Except E AIS
  allocate_registers : AIS → Except E AllocatedAbstractInstructionSet
  emit_pusha_popa : AllocatedAbstractInstructionSet → AllocatedAbstractInstructionSet

/-- Outcome of running the lowering: a normal Result, or a process panic
(modelling a Rust unwrap on None). -/
inductive LoweredResult (E A : Type)
  | panic
  | err (e : E)
  | ok (a : A)
deriving DecidableEq

/-- True iff the program has no non-entry functions, no entries, and no
data section values. -/
def AbstractProgram.is_empty {AIS DRF : Type} (p : AbstractProgram AIS DRF) : Bool :=
  p.non_entries.isEmpty && p.entries.isEmpty && p.data_section.value_pairs.isEmpty

/-- Modelled from the spec: the fixed mismatched-selector revert code
(compiler_constants.rs is not under src/); its concrete value plays no
role in the properties below. -/
def MISMATCHED_SELECTOR_REVERT_CODE : Nat := 123

/-- Word offset of the input selector within the call frame. -/
def SELECTOR_WORD_OFFSET : Nat := 73

/-- Register holding the input selector during dispatch. -/
def INPUT_SELECTOR_REG : AllocatedRegister := .Allocated 0

/-- Register holding the candidate selector during dispatch. -/
def PROG_SELECTOR_REG : AllocatedRegister := .Allocated 1

/-- Register holding the selector comparison result during dispatch. -/
def CMP_RESULT_REG : AllocatedRegister := .Allocated 2

/-- Builds the asm preamble: metadata and a jump past the metadata.
Threads the label sequencer state explicitly. -/
def AbstractProgram.build_prologue {AIS DRF : Type} (p : AbstractProgram AIS DRF) :
    AllocatedAbstractInstructionSet × AbstractProgram AIS DRF :=
  let fresh := p.reg_seqr.get_label
  (⟨[
    ⟨.Left (.MOVE (.Constant .Scratch) (.Constant .ProgramCounter)), "", none⟩,
    ⟨.Right (.Jump fresh.1), "", none⟩,
    ⟨.Right .DataSectionOffsetPlaceholder, "data section offset", none⟩,
    ⟨.Right .Metadata, "metadata", none⟩,
    ⟨.Right (.Label fresh.1), "end of metadata", none⟩,
    ⟨.Left (.LW (.Constant .DataSectionStart) (.Constant .Scratch) ⟨1⟩), "", none⟩,
    ⟨.Left (.ADD (.Constant .DataSectionStart) (.Constant .DataSectionStart)
        (.Constant .Scratch)), "", none⟩
  ]⟩, { p with reg_seqr := fresh.2 })

/-- Appends the single stack growth instruction reserving globals storage;
the source casts len_in_bytes to u32, hence the reduction modulo 2 to the 32. -/
def AbstractProgram.append_globals_allocation {AIS DRF : Type} (p : AbstractProgram AIS DRF)
    (asm : AllocatedAbstractInstructionSet) : AllocatedAbstractInstructionSet :=
  ⟨asm.ops ++ [⟨.Left (.CFEI ⟨p.globals_section.len_in_bytes % 4294967296⟩),
    "allocate stack space for globals", none⟩]⟩

/-- Optimizes, verifies and register-allocates the before-entries block and
splices its instructions onto the prologue; the two matches mirror the two
fallible steps of the source. -/
def AbstractProgram.append_before_entries {AIS DRF E : Type} (p : AbstractProgram AIS DRF)
    (C : Collaborators AIS E) (asm : AllocatedAbstractInstructionSet) :
    Except E AllocatedAbstractInstructionSet :=
  match C.verify (C.optimize p.before_entries p.data_section) with
  | .error e => .error e
  | .ok verified =>
    match C.allocate_registers verified with
    | .error e => .error e
    | .ok before_entries => .ok ⟨asm.ops ++ before_entries.ops⟩

/-- When the new encoding is used, jumps to the function named __entry.
The source unwraps the linear-scan lookup; a failed lookup is a panic,
modelled as the none result. -/
def AbstractProgram.append_jump_to_entry {AIS DRF : Type} (p : AbstractProgram AIS DRF)
    (asm : AllocatedAbstractInstructionSet) : Option AllocatedAbstractInstructionSet :=
  match p.entries.find? (fun x => x.name == "__entry") with
  | none => none
  | some entry =>
    some ⟨asm.ops ++ [⟨.Right (.Jump entry.label), "jump to ABI function selector", none⟩]⟩

/-- The per-entry loop of the v0 contract ABI switch: for each entry with a
selector, insert its selector word into the data section and emit the load,
compare and conditional jump for its case; entries without a selector are
skipped.  Returns the case instructions and the final data section. -/
def abi_switch_cases {AIS DRF : Type} (entries : List (AbstractEntry AIS DRF))
    (ds : DataSection) : List AllocatedAbstractOp × DataSection :=
  match entries with
  | [] => ([], ds)
  | entry :: rest =>
    match entry.selector with
    | none => abi_switch_cases rest ds
    | some selector =>
      let inserted := ds.insert_data_value
        (Entry.new_word (u32_from_be_bytes selector) none none)
      let tail := abi_switch_cases rest inserted.2
      (⟨.Left (.LoadDataId PROG_SELECTOR_REG inserted.1),
          "[function selection]: load function " ++ entry.name ++
            " selector for comparison", none⟩ ::
        ⟨.Left (.EQ CMP_RESULT_REG INPUT_SELECTOR_REG PROG_SELECTOR_REG),
          "[function selection]: compare function " ++ entry.name ++
            " selector with input selector", none⟩ ::
        ⟨.Right (.JumpIfNotZero CMP_RESULT_REG entry.label),
          "[function selection]: jump to selected contract function", none⟩ ::
        tail.1, tail.2)

/-- Builds the contract switch on the input selector at call-frame word
offset 73: a begin comment, the selector load, the per-entry cases, an
optional fallback call, and the unconditional revert trailer. -/
def AbstractProgram.append_encoding_v0_contract_abi_switch {AIS DRF : Type}
    (p : AbstractProgram AIS DRF) (asm : AllocatedAbstractInstructionSet)
    (fallback_fn : Option Label) : AllocatedAbstractInstructionSet × DataSection :=
  let cases := abi_switch_cases p.entries p.data_section
  (⟨asm.ops ++
    [⟨.Right .Comment,
      "[function selection]: begin contract function selector switch", none⟩,
     ⟨.Left (.LW INPUT_SELECTOR_REG (.Constant .FramePointer) ⟨SELECTOR_WORD_OFFSET⟩),
      "[function selection]: load input function selector", none⟩] ++
    cases.1 ++
    (match fallback_fn with
     | some fallback =>
       [⟨.Right (.Call fallback),
         "[function selection]: call contract fallback function", none⟩]
     | none => []) ++
    [⟨.Left (.MOVI (.Constant .Scratch) ⟨MISMATCHED_SELECTOR_REVERT_CODE⟩),
      "[function selection]: load revert code for mismatched function selector", none⟩,
     ⟨.Left (.RVRT (.Constant .Scratch)),
      "[function selection]: revert if no selectors have matched", none⟩]⟩,
   cases.2)

/-- The Rust collect of an iterator of results into a result of a list:
stops at the first error, preserving order. -/
def collect_results {A B E : Type} (f : A → Except E B) : List A → Except E (List B)
  | [] => .ok []
  | a :: rest =>
    match f a with
    | .error e => .error e
    | .ok b =>
      match collect_results f rest with
      | .error e => .error e
      | .ok bs => .ok (b :: bs)

/-- The entry-dispatch match of into_allocated_program: new-encoding
contracts jump to __entry (none models the unwrap panic), old-encoding
contracts get the ABI switch (which extends the data section), every other
kind gets no dispatch code. -/
def AbstractProgram.entry_dispatch {AIS DRF : Type} (p : AbstractProgram AIS DRF)
    (asm : AllocatedAbstractInstructionSet) (fallback_fn : Option Label) :
    Option (AllocatedAbstractInstructionSet × DataSection) :=
  match p.experimental.new_encoding, p.kind with
  | true, .Contract =>
    match p.append_jump_to_entry asm with
    | none => none
    | some asm1 => some (asm1, p.data_section)
  | false, .Contract => some (p.append_encoding_v0_contract_abi_switch asm fallback_fn)
  | _, _ => some (asm, p.data_section)

/-- Adds prologue, globals allocation, before-entries code and the contract
method dispatch, then optimizes, verifies and register-allocates every
function; mirrors into_allocated_program of the source, with the unwrap
panic surfaced as the panic outcome. -/
def AbstractProgram.into_allocated_program {AIS DRF E : Type} (p : AbstractProgram AIS DRF)
    (C : Collaborators AIS E) (fallback_fn : Option Label) :
    LoweredResult E (AllocatedProgram DRF) :=
  let built := p.build_prologue
  let p1 := built.2
  let prologue0 := p1.append_globals_allocation built.1
  match p1.append_before_entries C prologue0 with
  | .error e => .err e
  | .ok prologue1 =>
    match p1.entry_dispatch prologue1 fallback_fn with
    | none => .panic
    | some dispatched =>
      let entries := p1.entries.map fun entry =>
        (entry.selector, entry.label, entry.name, entry.test_decl_ref)
      let all_functions := p1.entries.map (fun entry => entry.ops) ++ p1.non_entries
      match collect_results (fun s => C.verify (C.optimize s dispatched.2)) all_functions with
      | .error e => .err e
      | .ok abstract_functions =>
        match collect_results
            (fun s => (C.allocate_registers s).map C.emit_pusha_popa) abstract_functions with
        | .error e => .err e
        | .ok functions =>
          .ok { kind := p1.kind, data_section := dispatched.2,
                prologue := dispatched.1, functions := functions, entries := entries }

/-- The three dispatch-case instructions for one selector-carrying entry,
as a function of the index of its selector word in the data section and of
the entry: load the selector constant, compare it with the input selector,
and jump to the entry label when equal.  Used to state the switch shape. -/
def case_ops {AIS DRF : Type} (x : Nat × (AbstractEntry AIS DRF × Selector)) :
    List AllocatedAbstractOp :=
  [⟨.Left (.LoadDataId PROG_SELECTOR_REG x.1),
     "[function selection]: load function " ++ x.2.1.name ++ " selector for comparison",
     none⟩,
   ⟨.Left (.EQ CMP_RESULT_REG INPUT_SELECTOR_REG PROG_SELECTOR_REG),
     "[function selection]: compare function " ++ x.2.1.name ++
       " selector with input selector", none⟩,
   ⟨.Right (.JumpIfNotZero CMP_RESULT_REG x.2.1.label),
     "[function selection]: jump to selected contract function", none⟩]

/-- True iff the operation is a stack growth (CFEI) instruction. -/
def AllocatedAbstractOp.is_cfei (op : AllocatedAbstractOp) : Bool :=
  match op.opcode with
  | .Left (.CFEI _) => true
  | _ => false

/-- Trivial collaborators: identity optimize, always-succeeding verify and
allocation; used to evaluate the driver on concrete programs. -/
def trivC : Collaborators Unit Unit :=
  { optimize := fun s _ => s
    verify := fun s => Except.ok s
    allocate_registers := fun _ => Except.ok ⟨[]⟩
    emit_pusha_popa := fun a => a }

/-- Collaborators whose verification always fails with error 7. -/
def failC : Collaborators Unit Nat :=
  { optimize := fun s _ => s
    verify := fun _ => Except.error 7
    allocate_registers := fun _ => Except.ok ⟨[]⟩
    emit_pusha_popa := fun a => a }

/-- A sample entry named main with no selector. -/
def entryMain : AbstractEntry Unit Unit :=
  { selector := none, label := 42, ops := (), name := "main", test_decl_ref := none }

/-- A sample entry named __entry with no selector. -/
def entryDunder : AbstractEntry Unit Unit :=
  { selector := none, label := 57, ops := (), name := "__entry", test_decl_ref := none }

/-- A sample selector-carrying entry. -/
def entrySel : AbstractEntry Unit Unit :=
  { selector := some (⟨0, by decide⟩, ⟨0, by decide⟩, ⟨1, by decide⟩, ⟨2, by decide⟩)
    label := 99, ops := (), name := "f", test_decl_ref := none }

/-- A sample script program with one entry. -/
def p0 : AbstractProgram Unit Unit :=
  { kind := .Script, data_section := ⟨[]⟩, globals_section := ⟨0⟩
    before_entries := (), entries := [entryMain], non_entries := []
    reg_seqr := ⟨0⟩, experimental := ⟨true⟩ }

/-- A new-encoding contract program that has no entry named __entry. -/
def pMissing : AbstractProgram Unit Unit :=
  { kind := .Contract, data_section := ⟨[]⟩, globals_section := ⟨0⟩
    before_entries := (), entries := [entryMain], non_entries := []
    reg_seqr := ⟨0⟩, experimental := ⟨true⟩ }

/-- A new-encoding contract program with an __entry entry. -/
def pNew : AbstractProgram Unit Unit :=
  { kind := .Contract, data_section := ⟨[]⟩, globals_section := ⟨0⟩
    before_entries := (), entries := [entryDunder], non_entries := []
    reg_seqr := ⟨0⟩, experimental := ⟨true⟩ }

/-- An old-encoding contract program with no entries. -/
def pOldEmpty : AbstractProgram Unit Unit :=
  { kind := .Contract, data_section := ⟨[]⟩, globals_section := ⟨0⟩
    before_entries := (), entries := [], non_entries := []
    reg_seqr := ⟨0⟩, experimental := ⟨false⟩ }

/-- A script program whose globals section byte length is 2 to the 32. -/
def p32 : AbstractProgram Unit Unit :=
  { kind := .Script, data_section := ⟨[]⟩, globals_section := ⟨4294967296⟩
    before_entries := (), entries := [], non_entries := []
    reg_seqr := ⟨0⟩, experimental := ⟨true⟩ }

/-- The preamble instruction list for label 0. -/
def preamble0 : List AllocatedAbstractOp :=
  [⟨.Left (.MOVE (.Constant .Scratch) (.Constant .ProgramCounter)), "", none⟩,
   ⟨.Right (.Jump 0), "", none⟩,
   ⟨.Right .DataSectionOffsetPlaceholder, "data section offset", none⟩,
   ⟨.Right .Metadata, "metadata", none⟩,
   ⟨.Right (.Label 0), "end of metadata", none⟩,
   ⟨.Left (.LW (.Constant .DataSectionStart) (.Constant .Scratch) ⟨1⟩), "", none⟩,
   ⟨.Left (.ADD (.Constant .DataSectionStart) (.Constant .DataSectionStart)
       (.Constant .Scratch)), "", none⟩]

/-- The globals stack growth instruction with operand zero. -/
def cfei0 : AllocatedAbstractOp :=
  ⟨.Left (.CFEI ⟨0⟩), "allocate stack space for globals", none⟩

/-- The expected lowering output for the sample script program p0. -/
def prog0 : AllocatedProgram Unit :=
  { kind := .Script, data_section := ⟨[]⟩
    prologue := ⟨preamble0 ++ [cfei0]⟩
    functions := [⟨[]⟩]
    entries := [(none, 42, "main", none)] }

/-- An old-encoding contract program with one selector-carrying entry and
one selector-less entry. -/
def pOldSel : AbstractProgram Unit Unit :=
  { kind := .Contract, data_section := ⟨[]⟩, globals_section := ⟨0⟩
    before_entries := (), entries := [entrySel, entryMain], non_entries := []
    reg_seqr := ⟨0⟩, experimental := ⟨false⟩ }

/-- The expected lowering output for the old-encoding contract pOldSel. -/
def progOld : AllocatedProgram Unit :=
  { kind := .Contract
    data_section := ⟨[⟨.Word 258, none, none⟩]⟩
    prologue := ⟨preamble0 ++ [cfei0] ++
      [⟨.Right .Comment,
        "[function selection]: begin contract function selector switch", none⟩,
       ⟨.Left (.LW INPUT_SELECTOR_REG (.Constant .FramePointer) ⟨73⟩),
        "[function selection]: load input function selector", none⟩,
       ⟨.Left (.LoadDataId PROG_SELECTOR_REG 0),
        "[function selection]: load function f selector for comparison", none⟩,
       ⟨.Left (.EQ CMP_RESULT_REG INPUT_SELECTOR_REG PROG_SELECTOR_REG),
        "[function selection]: compare function f selector with input selector", none⟩,
       ⟨.Right (.JumpIfNotZero CMP_RESULT_REG 99),
        "[function selection]: jump to selected contract function", none⟩,
       ⟨.Left (.MOVI (.Constant .Scratch) ⟨123⟩),
        "[function selection]: load revert code for mismatched function selector", none⟩,
       ⟨.Left (.RVRT (.Constant .Scratch)),
        "[function selection]: revert if no selectors have matched", none⟩]⟩
    functions := [⟨[]⟩, ⟨[]⟩]
    entries := [(entrySel.selector, 99, "f", none), (none, 42, "main", none)] }

/-! Helper lemmas.  The program returned by build_prologue differs from its
argument only in the sequencer state, so every other access factors through
the original program; each of these holds by unfolding projections. -/

theorem bp_append_before_entries {AIS DRF E : Type} (p : AbstractProgram AIS DRF)
    (C : Collaborators AIS E) (asm : AllocatedAbstractInstructionSet) :
    (p.build_prologue).2.append_before_entries C asm = p.append_before_entries C asm := rfl

theorem bp_append_globals_allocation {AIS DRF : Type} (p : AbstractProgram AIS DRF)
    (asm : AllocatedAbstractInstructionSet) :
    (p.build_prologue).2.append_globals_allocation asm = p.append_globals_allocation asm := rfl

theorem bp_entry_dispatch {AIS DRF : Type} (p : AbstractProgram AIS DRF)
    (asm : AllocatedAbstractInstructionSet) (fb : Option Label) :
    (p.build_prologue).2.entry_dispatch asm fb = p.entry_dispatch asm fb := rfl

theorem bp_entries {AIS DRF : Type} (p : AbstractProgram AIS DRF) :
    (p.build_prologue).2.entries = p.entries := rfl

theorem bp_non_entries {AIS DRF : Type} (p : AbstractProgram AIS DRF) :
    (p.build_prologue).2.non_entries = p.non_entries := rfl

theorem bp_kind {AIS DRF : Type} (p : AbstractProgram AIS DRF) :
    (p.build_prologue).2.kind = p.kind := rfl

/-- The data section produced by the dispatch-case loop: the original
values followed by one selector word per selector-carrying entry, in the
original entry order. -/
theorem abi_switch_cases_snd {AIS DRF : Type} (entries : List (AbstractEntry AIS DRF))
    (ds : DataSection) :
    (abi_switch_cases entries ds).2.value_pairs =
      ds.value_pairs ++ (entries.filterMap (fun e => e.selector)).map
        (fun sel => Entry.new_word (u32_from_be_bytes sel) none none) := by
  induction entries generalizing ds with
  | nil => simp [abi_switch_cases]
  | cons e rest ih =>
    cases h : e.selector with
    | none => simp [abi_switch_cases, h, ih]
    | some sel => simp [abi_switch_cases, h, ih, DataSection.insert_data_value]

/-- The instructions produced by the dispatch-case loop: three-instruction
case blocks in entry order, the selector word of the case at relative
position i living at data section index (original length + i). -/
theorem abi_switch_cases_fst {AIS DRF : Type} (entries : List (AbstractEntry AIS DRF))
    (ds : DataSection) :
    (abi_switch_cases entries ds).1 =
      ((entries.filterMap (fun e => e.selector.map (fun s => (e, s)))).enumFrom
        ds.value_pairs.length).flatMap case_ops := by
  induction entries generalizing ds with
  | nil => simp [abi_switch_cases]
  | cons e rest ih =>
    cases h : e.selector with
    | none => simp [abi_switch_cases, h, ih]
    | some sel =>
      simp [abi_switch_cases, h, ih, DataSection.insert_data_value, case_ops,
        List.enumFrom, List.filterMap_cons]

/-- Inversion of a successful lowering run: the output kind and entry
metadata come straight from the input, and the output prologue and data
section are exactly what the dispatch step produced. -/
theorem into_allocated_program_ok_inv {AIS DRF E : Type} (C : Collaborators AIS E)
    (p : AbstractProgram AIS DRF) (fb : Option Label) (prog : AllocatedProgram DRF)
    (h : p.into_allocated_program C fb = .ok prog) :
    prog.kind = p.kind
    ∧ prog.entries = p.entries.map
        (fun entry => (entry.selector, entry.label, entry.name, entry.test_decl_ref))
    ∧ ∃ asm1, p.append_before_entries C
          (p.append_globals_allocation (p.build_prologue).1) = .ok asm1
        ∧ p.entry_dispatch asm1 fb = some (prog.prologue, prog.data_section) := by
  simp only [AbstractProgram.into_allocated_program, bp_append_before_entries,
    bp_append_globals_allocation, bp_entry_dispatch, bp_entries, bp_non_entries,
    bp_kind] at h
  cases h1 : p.append_before_entries C
      (p.append_globals_allocation (p.build_prologue).1) with
  | error e => simp [h1] at h
  | ok asm1 =>
    simp only [h1] at h
    cases h2 : p.entry_dispatch asm1 fb with
    | none => simp [h2] at h
    | some d =>
      simp only [h2] at h
      cases h3 : collect_results (fun s => C.verify (C.optimize s d.2))
          (p.entries.map (fun entry => entry.ops) ++ p.non_entries) with
      | error e => simp [h3] at h
      | ok fns =>
        simp only [h3] at h
        cases h4 : collect_results
            (fun s => (C.allocate_registers s).map C.emit_pusha_popa) fns with
        | error e => simp [h4] at h
        | ok functions =>
          simp only [h4] at h
          injection h with h5
          subst h5
          exact ⟨rfl, rfl, asm1, rfl, h2⟩

/-- Inversion of the dispatch step at the data section: the old-encoding
contract path appends exactly the selector words, every other path leaves
the data section unchanged. -/
theorem entry_dispatch_ds_inv {AIS DRF : Type} (p : AbstractProgram AIS DRF)
    (asm : AllocatedAbstractInstructionSet) (fb : Option Label)
    (asm2 : AllocatedAbstractInstructionSet) (ds : DataSection)
    (h : p.entry_dispatch asm fb = some (asm2, ds)) :
    ds.value_pairs = p.data_section.value_pairs ++
      (if p.experimental.new_encoding = false ∧ p.kind = .Contract
       then (p.entries.filterMap (fun e => e.selector)).map
         (fun sel => Entry.new_word (u32_from_be_bytes sel) none none)
       else []) := by
  cases hflag : p.experimental.new_encoding with
  | true =>
    cases hkind : p.kind with
    | Contract =>
      simp only [AbstractProgram.entry_dispatch, hflag, hkind,
        AbstractProgram.append_jump_to_entry] at h
      cases hf : p.entries.find? (fun x => x.name == "__entry") with
      | none => simp [hf] at h
      | some ent =>
        simp only [hf, Option.some.injEq, Prod.mk.injEq] at h
        obtain ⟨-, rfl⟩ := h
        simp [hflag]
    | Script =>
      simp only [AbstractProgram.entry_dispatch, hflag, hkind, Option.some.injEq,
        Prod.mk.injEq] at h
      obtain ⟨-, rfl⟩ := h
      simp [hkind]
    | Predicate =>
      simp only [AbstractProgram.entry_dispatch, hflag, hkind, Option.some.injEq,
        Prod.mk.injEq] at h
      obtain ⟨-, rfl⟩ := h
      simp [hkind]
    | Library =>
      simp only [AbstractProgram.entry_dispatch, hflag, hkind, Option.some.injEq,
        Prod.mk.injEq] at h
      obtain ⟨-, rfl⟩ := h
      simp [hkind]
  | false =>
    cases hkind : p.kind with
    | Contract =>
      simp only [AbstractProgram.entry_dispatch, hflag, hkind,
        AbstractProgram.append_encoding_v0_contract_abi_switch, Option.some.injEq,
        Prod.mk.injEq] at h
      obtain ⟨-, rfl⟩ := h
      simp [hflag, hkind, abi_switch_cases_snd]
    | Script =>
      simp only [AbstractProgram.entry_dispatch, hflag, hkind, Option.some.injEq,
        Prod.mk.injEq] at h
      obtain ⟨-, rfl⟩ := h
      simp [hkind]
    | Predicate =>
      simp only [AbstractProgram.entry_dispatch, hflag, hkind, Option.some.injEq,
        Prod.mk.injEq] at h
      obtain ⟨-, rfl⟩ := h
      simp [hkind]
    | Library =>
      simp only [AbstractProgram.entry_dispatch, hflag, hkind, Option.some.injEq,
        Prod.mk.injEq] at h
      obtain ⟨-, rfl⟩ := h
      simp [hkind]

/-- C9: is_empty returns true iff the program has zero entries, zero
non-entry functions and zero data section values; adding any one of the
three makes it return false. -/
theorem c9_is_empty_iff {AIS DRF : Type} (p : AbstractProgram AIS DRF) :
    (p.is_empty = true ↔
      (p.entries = [] ∧ p.non_entries = [] ∧ p.data_section.value_pairs = []))
    ∧ (∀ e, (AbstractProgram.is_empty { p with entries := e :: p.entries }) = false)
    ∧ (∀ f, (AbstractProgram.is_empty { p with non_entries := f :: p.non_entries }) = false)
    ∧ (∀ en, (AbstractProgram.is_empty
        { p with data_section := (p.data_section.insert_data_value en).2 }) = false) := by
  refine ⟨?_, ?_, ?_, ?_⟩
  · simp only [AbstractProgram.is_empty, Bool.and_eq_true, List.isEmpty_iff]
    tauto
  · intro e; simp [AbstractProgram.is_empty]
  · intro f; simp [AbstractProgram.is_empty]
  · intro en; simp [AbstractProgram.is_empty, DataSection.insert_data_value]

/-- C3: build_prologue produces exactly the fixed preamble sequence: move
the program counter into scratch, an unconditional jump to a freshly
generated label, the data section offset word placeholder, the metadata
placeholder, the definition of that label, a load of the data section
start from scratch plus immediate 1, and an add of scratch into the data
section start register; the sequence depends only on the sequencer state,
never on program content. -/
theorem c3_build_prologue_fixed_sequence {AIS DRF : Type}
    (p q : AbstractProgram AIS DRF) :
    (∃ label, label = (p.reg_seqr.get_label).1 ∧
      (p.build_prologue).1.ops =
        [⟨.Left (.MOVE (.Constant .Scratch) (.Constant .ProgramCounter)), "", none⟩,
         ⟨.Right (.Jump label), "", none⟩,
         ⟨.Right .DataSectionOffsetPlaceholder, "data section offset", none⟩,
         ⟨.Right .Metadata, "metadata", none⟩,
         ⟨.Right (.Label label), "end of metadata", none⟩,
         ⟨.Left (.LW (.Constant .DataSectionStart) (.Constant .Scratch) ⟨1⟩), "", none⟩,
         ⟨.Left (.ADD (.Constant .DataSectionStart) (.Constant .DataSectionStart)
             (.Constant .Scratch)), "", none⟩])
    ∧ (p.reg_seqr = q.reg_seqr → (p.build_prologue).1 = (q.build_prologue).1) := by
  refine ⟨⟨(p.reg_seqr.get_label).1, rfl, rfl⟩, fun h => ?_⟩
  simp [AbstractProgram.build_prologue, h]

/-- C3 witness: two sample programs with different content and kind but the
same sequencer state get identical preambles. -/
theorem c3_witness : (p0.build_prologue).1 = (pMissing.build_prologue).1 :=
  (c3_build_prologue_fixed_sequence p0 pMissing).2 rfl

/-- C1: on a new-encoding contract whose entries lack a function named
__entry (here the single entry is named main), lowering with collaborator
passes that all succeed reaches the unwrap in append_jump_to_entry and
panics, instead of returning a compile error as the specification demands. -/
theorem c1_missing_entry_panics :
    pMissing.into_allocated_program trivC none = LoweredResult.panic := rfl

/-- C4 counterexample: with a globals section byte length of 2 to the 32,
the emitted stack growth operand is 0, which is not the byte length: the
source casts the length to u32. -/
theorem c4_counterexample :
    (p32.append_globals_allocation (p32.build_prologue).1).ops =
      (p32.build_prologue).1.ops ++
        [⟨.Left (.CFEI ⟨0⟩), "allocate stack space for globals", none⟩]
    ∧ (0 : Nat) ≠ p32.globals_section.len_in_bytes :=
  ⟨rfl, by decide⟩

/-- C4 amended: lowering emits exactly one stack growth instruction, whose
operand is the globals section byte length reduced modulo 2 to the 32, and
places it immediately after the preamble (which contains no stack growth
instruction) and before every instruction of the before-entries block. -/
theorem c4_globals_allocation_placement {AIS DRF E : Type} (C : Collaborators AIS E)
    (p : AbstractProgram AIS DRF) (asm2 : AllocatedAbstractInstructionSet)
    (h : p.append_before_entries C
        (p.append_globals_allocation (p.build_prologue).1) = .ok asm2) :
    ∃ beOps,
      asm2.ops = (p.build_prologue).1.ops ++
        (⟨.Left (.CFEI ⟨p.globals_section.len_in_bytes % 4294967296⟩),
          "allocate stack space for globals", none⟩ :: beOps)
      ∧ (p.build_prologue).1.ops.countP (fun op => op.is_cfei) = 0 := by
  unfold AbstractProgram.append_before_entries at h
  cases h1 : C.verify (C.optimize p.before_entries p.data_section) with
  | error e => simp [h1] at h
  | ok verified =>
    simp only [h1] at h
    cases h2 : C.allocate_registers verified with
    | error e => simp [h2] at h
    | ok before_entries =>
      simp only [h2, Except.ok.injEq] at h
      refine ⟨before_entries.ops, ?_, ?_⟩
      · rw [← h]
        simp [AbstractProgram.append_globals_allocation]
      · simp [AbstractProgram.build_prologue, List.countP_cons, AllocatedAbstractOp.is_cfei]

/-- C4 witness: the amended placement theorem instantiated at the sample
script program with trivial collaborators. -/
theorem c4_globals_allocation_placement_witness :
    ∃ beOps,
      (⟨preamble0 ++ [cfei0]⟩ : AllocatedAbstractInstructionSet).ops =
        (p0.build_prologue).1.ops ++
          (⟨.Left (.CFEI ⟨p0.globals_section.len_in_bytes % 4294967296⟩),
            "allocate stack space for globals", none⟩ :: beOps)
      ∧ (p0.build_prologue).1.ops.countP (fun op => op.is_cfei) = 0 :=
  c4_globals_allocation_placement trivC p0 ⟨preamble0 ++ [cfei0]⟩ rfl

/-- C2 counterexample: for an old-encoding contract with no entries and no
fallback, the code appended to the prologue is four ops beginning with a
comment marker op, not the three-instruction sequence (selector load,
revert code load, revert) that the claimed exact enumeration yields. -/
theorem c2_counterexample :
    (pOldEmpty.append_encoding_v0_contract_abi_switch ⟨[]⟩ none).1.ops =
      [⟨.Right .Comment,
        "[function selection]: begin contract function selector switch", none⟩,
       ⟨.Left (.LW INPUT_SELECTOR_REG (.Constant .FramePointer) ⟨SELECTOR_WORD_OFFSET⟩),
        "[function selection]: load input function selector", none⟩,
       ⟨.Left (.MOVI (.Constant .Scratch) ⟨MISMATCHED_SELECTOR_REVERT_CODE⟩),
        "[function selection]: load revert code for mismatched function selector", none⟩,
       ⟨.Left (.RVRT (.Constant .Scratch)),
        "[function selection]: revert if no selectors have matched", none⟩]
    ∧ (pOldEmpty.append_encoding_v0_contract_abi_switch ⟨[]⟩ none).1.ops ≠
      [⟨.Left (.LW INPUT_SELECTOR_REG (.Constant .FramePointer) ⟨SELECTOR_WORD_OFFSET⟩),
        "[function selection]: load input function selector", none⟩,
       ⟨.Left (.MOVI (.Constant .Scratch) ⟨MISMATCHED_SELECTOR_REVERT_CODE⟩),
        "[function selection]: load revert code for mismatched function selector", none⟩,
       ⟨.Left (.RVRT (.Constant .Scratch)),
        "[function selection]: revert if no selectors have matched", none⟩] :=
  ⟨rfl, by decide⟩

/-- C2 amended: the dispatch code appended to the prologue is exactly: a
single comment marker op, then one load of the input selector word from
frame pointer word offset 73, then, for each selector-carrying entry in
original order, a load of that entry selector constant into the comparison
register, an equality compare with the input selector register, and a
jump-if-not-zero to that entry label (selector-less entries contribute
nothing), then a call to the fallback label iff one was supplied, then the
fixed mismatched-selector revert code load into scratch followed by the
revert on scratch. -/
theorem c2_dispatch_sequence {AIS DRF : Type} (p : AbstractProgram AIS DRF)
    (asm : AllocatedAbstractInstructionSet) (fb : Option Label) :
    (p.append_encoding_v0_contract_abi_switch asm fb).1.ops =
      asm.ops ++
      [⟨.Right .Comment,
        "[function selection]: begin contract function selector switch", none⟩,
       ⟨.Left (.LW INPUT_SELECTOR_REG (.Constant .FramePointer) ⟨SELECTOR_WORD_OFFSET⟩),
        "[function selection]: load input function selector", none⟩] ++
      ((p.entries.filterMap (fun e => e.selector.map (fun s => (e, s)))).enumFrom
        p.data_section.value_pairs.length).flatMap case_ops ++
      (match fb with
       | some fallback =>
         [⟨.Right (.Call fallback),
           "[function selection]: call contract fallback function", none⟩]
       | none => []) ++
      [⟨.Left (.MOVI (.Constant .Scratch) ⟨MISMATCHED_SELECTOR_REVERT_CODE⟩),
        "[function selection]: load revert code for mismatched function selector", none⟩,
       ⟨.Left (.RVRT (.Constant .Scratch)),
        "[function selection]: revert if no selectors have matched", none⟩] := by
  simp only [AbstractProgram.append_encoding_v0_contract_abi_switch]
  rw [abi_switch_cases_fst]

/-- C6: the switch appends, per selector-carrying entry in order, one data
section word entry whose value is the 4 selector bytes read as a big-endian
32-bit integer; that value is below 2 to the 32, so widening it to the
64-bit word stores it exactly. -/
theorem c6_selector_word_value {AIS DRF : Type} (p : AbstractProgram AIS DRF)
    (asm : AllocatedAbstractInstructionSet) (fb : Option Label) :
    ((p.append_encoding_v0_contract_abi_switch asm fb).2).value_pairs =
      p.data_section.value_pairs ++
        (p.entries.filterMap (fun e => e.selector)).map
          (fun sel => Entry.new_word (u32_from_be_bytes sel) none none)
    ∧ ∀ sel : Selector,
        (Entry.new_word (u32_from_be_bytes sel) none none).value =
          EntryValue.Word (sel.1.val * 2 ^ 24 + sel.2.1.val * 2 ^ 16 +
            sel.2.2.1.val * 2 ^ 8 + sel.2.2.2.val)
        ∧ u32_from_be_bytes sel < 2 ^ 32 := by
  constructor
  · show ((abi_switch_cases p.entries p.data_section).2).value_pairs = _
    exact abi_switch_cases_snd p.entries p.data_section
  · intro sel
    have h1 := sel.1.isLt
    have h2 := sel.2.1.isLt
    have h3 := sel.2.2.1.isLt
    have h4 := sel.2.2.2.isLt
    have hlt : u32_from_be_bytes sel < 2 ^ 32 := by
      unfold u32_from_be_bytes
      norm_num
      omega
    refine ⟨?_, hlt⟩
    have hmod : u32_from_be_bytes sel % 18446744073709551616 = u32_from_be_bytes sel := by
      apply Nat.mod_eq_of_lt
      calc u32_from_be_bytes sel < 2 ^ 32 := hlt
        _ < 18446744073709551616 := by norm_num
    simp only [Entry.new_word, hmod, EntryValue.Word.injEq]
    unfold u32_from_be_bytes
    norm_num

/-- C7: for a new-encoding contract, the dispatch appended is a single
unconditional jump to the label of the entry found under the name __entry,
with no selector comparison; an entry named __entry exists iff the lookup
finds one; and for every non-contract kind no dispatch code is appended at
all. -/
theorem c7_dispatch_shape {AIS DRF : Type} (p : AbstractProgram AIS DRF)
    (asm : AllocatedAbstractInstructionSet) (fb : Option Label) :
    (p.experimental.new_encoding = true → p.kind = .Contract →
      ∀ ent, p.entries.find? (fun x => x.name == "__entry") = some ent →
        p.entry_dispatch asm fb =
          some (⟨asm.ops ++
            [⟨.Right (.Jump ent.label), "jump to ABI function selector", none⟩]⟩,
            p.data_section))
    ∧ ((∃ e, e ∈ p.entries ∧ e.name = "__entry") →
        ∃ ent, p.entries.find? (fun x => x.name == "__entry") = some ent
          ∧ ent.name = "__entry")
    ∧ (p.kind ≠ .Contract → p.entry_dispatch asm fb = some (asm, p.data_section)) := by
  refine ⟨?_, ?_, ?_⟩
  · intro hne hk ent hfind
    simp [AbstractProgram.entry_dispatch, hne, hk,
      AbstractProgram.append_jump_to_entry, hfind]
  · rintro ⟨e, he, hname⟩
    have hsome : (p.entries.find? (fun x => x.name == "__entry")).isSome := by
      rw [List.find?_isSome]
      exact ⟨e, he, by simp [hname]⟩
    obtain ⟨ent, hent⟩ := Option.isSome_iff_exists.mp hsome
    refine ⟨ent, hent, ?_⟩
    have := List.find?_some hent
    simpa using this
  · intro hk
    cases hflag : p.experimental.new_encoding <;> cases hkind : p.kind <;>
      first
        | exact absurd hkind hk
        | simp [AbstractProgram.entry_dispatch, hflag, hkind]

/-- C7 witness: the dispatch shape theorem applied to a concrete
new-encoding contract with an __entry entry and to a concrete script. -/
theorem c7_dispatch_shape_witness :
    pNew.entry_dispatch ⟨[]⟩ none =
      some (⟨[⟨.Right (.Jump 57), "jump to ABI function selector", none⟩]⟩, ⟨[]⟩)
    ∧ (∃ ent, pNew.entries.find? (fun x => x.name == "__entry") = some ent
        ∧ ent.name = "__entry")
    ∧ p0.entry_dispatch ⟨[]⟩ none = some (⟨[]⟩, ⟨[]⟩) :=
  ⟨(c7_dispatch_shape pNew ⟨[]⟩ none).1 rfl rfl entryDunder rfl,
   (c7_dispatch_shape pNew ⟨[]⟩ none).2.1
     ⟨entryDunder, by simp [pNew], rfl⟩,
   (c7_dispatch_shape p0 ⟨[]⟩ none).2.2 (by decide)⟩

/-- C5: a verification or allocation failure on the before-entries block or
on any function body (entries first, then non-entry functions, stopping at
the first failure) makes the lowering return exactly that compile error;
the error outcome carries no allocated program, whole or partial. -/
theorem c5_error_propagation {AIS DRF E : Type} (C : Collaborators AIS E)
    (p : AbstractProgram AIS DRF) (fb : Option Label) :
    (∀ e, p.append_before_entries C
        (p.append_globals_allocation (p.build_prologue).1) = .error e →
      p.into_allocated_program C fb = .err e)
    ∧ (∀ asm1 d e,
        p.append_before_entries C
          (p.append_globals_allocation (p.build_prologue).1) = .ok asm1 →
        p.entry_dispatch asm1 fb = some d →
        collect_results (fun s => C.verify (C.optimize s d.2))
          (p.entries.map (fun entry => entry.ops) ++ p.non_entries) = .error e →
        p.into_allocated_program C fb = .err e)
    ∧ (∀ asm1 d fns e,
        p.append_before_entries C
          (p.append_globals_allocation (p.build_prologue).1) = .ok asm1 →
        p.entry_dispatch asm1 fb = some d →
        collect_results (fun s => C.verify (C.optimize s d.2))
          (p.entries.map (fun entry => entry.ops) ++ p.non_entries) = .ok fns →
        collect_results (fun s => (C.allocate_registers s).map C.emit_pusha_popa) fns =
          .error e →
        p.into_allocated_program C fb = .err e) := by
  refine ⟨?_, ?_, ?_⟩
  · intro e h
    simp [AbstractProgram.into_allocated_program, bp_append_before_entries,
      bp_append_globals_allocation, h]
  · intro asm1 d e h1 h2 h3
    simp [AbstractProgram.into_allocated_program, bp_append_before_entries,
      bp_append_globals_allocation, bp_entry_dispatch, bp_entries, bp_non_entries,
      h1, h2, h3]
  · intro asm1 d fns e h1 h2 h3 h4
    simp [AbstractProgram.into_allocated_program, bp_append_before_entries,
      bp_append_globals_allocation, bp_entry_dispatch, bp_entries, bp_non_entries,
      h1, h2, h3, h4]

/-- C5 witness: with collaborators whose verification always fails with
error 7, lowering the sample program returns exactly that error. -/
theorem c5_error_propagation_witness :
    p0.into_allocated_program failC none = LoweredResult.err 7 :=
  (c5_error_propagation failC p0 none).1 7 rfl

/-- C8: a successful lowering returns, for each input entry in original
order, exactly its selector, label, name and test declaration reference,
whatever dispatch path was taken. -/
theorem c8_entries_preserved {AIS DRF E : Type} (C : Collaborators AIS E)
    (p : AbstractProgram AIS DRF) (fb : Option Label) (prog : AllocatedProgram DRF)
    (h : p.into_allocated_program C fb = .ok prog) :
    prog.entries = p.entries.map
      (fun entry => (entry.selector, entry.label, entry.name, entry.test_decl_ref)) :=
  (into_allocated_program_ok_inv C p fb prog h).2.1

/-- C8 witness: the entry metadata theorem at the sample script program. -/
theorem c8_entries_preserved_witness :
    prog0.entries = p0.entries.map
      (fun entry => (entry.selector, entry.label, entry.name, entry.test_decl_ref)) :=
  c8_entries_preserved trivC p0 none prog0 rfl

/-- C10: the output data section of a successful lowering equals the input
data section with, exactly when the program is an old-encoding contract,
one word entry appended per selector-carrying entry in declaration order,
and with no other change for every other kind and encoding. -/
theorem c10_data_section_evolution {AIS DRF E : Type} (C : Collaborators AIS E)
    (p : AbstractProgram AIS DRF) (fb : Option Label) (prog : AllocatedProgram DRF)
    (h : p.into_allocated_program C fb = .ok prog) :
    prog.data_section.value_pairs = p.data_section.value_pairs ++
      (if p.experimental.new_encoding = false ∧ p.kind = .Contract
       then (p.entries.filterMap (fun e => e.selector)).map
         (fun sel => Entry.new_word (u32_from_be_bytes sel) none none)
       else []) := by
  obtain ⟨-, -, asm1, -, h2⟩ := into_allocated_program_ok_inv C p fb prog h
  exact entry_dispatch_ds_inv p asm1 fb prog.prologue prog.data_section h2

/-- C10 witness: the data section theorem at a concrete old-encoding
contract whose lowering appends exactly one selector word. -/
theorem c10_data_section_evolution_witness :
    progOld.data_section.value_pairs = pOldSel.data_section.value_pairs ++
      (if pOldSel.experimental.new_encoding = false ∧ pOldSel.kind = .Contract
       then (pOldSel.entries.filterMap (fun e => e.selector)).map
         (fun sel => Entry.new_word (u32_from_be_bytes sel) none none)
       else []) :=
  c10_data_section_evolution trivC pOldSel none progOld rfl

end Sway
